import Mathlib

/-!
Verification of the NodeRunner core library (`src/lib.rs`, `src/main.rs`).

The Rust code is shallowly embedded:

* `serde_json::Value` becomes the inductive `Json` (only the constructors
  this program produces are needed: null, booleans, numbers, strings,
  objects).
* `ProcessResult` and `NodeRunnerProcessor` become structures with the
  same fields.
* `NodeRunnerProcessor::process(&mut self, data: &str)` mutates the
  receiver, so it is embedded as a function returning the new processor
  state together with the produced `ProcessResult`.  Its `Result<_>`
  return type becomes `Except String _` (the `Box<dyn Error>` payload is
  modelled as a string; the body never takes the error branch).
  The call `chrono::Utc::now().to_rfc3339()` is an external clock read;
  it is passed in as the extra argument `now`.
* The filesystem touched by `run` is modelled as an association list
  from paths to file contents; `fs::read_to_string` is a lookup that
  fails when the path is absent, `fs::write` prepends (i.e. overwrites)
  a binding.  `run` threads the filesystem explicitly and returns the
  `Result<()>` outcome together with the filesystem after the call.
  `fs::write`'s own `io::Result` (propagated by `?` in `run`) is made
  explicit by `fsWriteE`/`runE`, which take an environment oracle
  telling which paths the OS rejects; `run` is the special case where
  every write is accepted (`run_eq_runE`).
* `serde_json::to_string_pretty` becomes an executable pretty-printer
  for `Json` (2-space indentation, `": "` separators, JSON string
  escaping as serde_json performs it).
* Logging (`log`, `env_logger`) has no observable effect on the values
  under specification and is not modelled.
-/

/-- Embedding of the fragment of `serde_json::Value` this program uses.
`usize` values stored in JSON numbers are modelled as `Nat`. -/
inductive Json where
  | null : Json
  | bool (b : Bool) : Json
  | num (n : Nat) : Json
  | str (s : String) : Json
  | obj (fields : List (String × Json)) : Json
  deriving Repr

/-- Field lookup in a JSON object (first binding wins), `none` on
non-objects or missing keys. -/
def Json.getField : Json → String → Option Json
  | .obj fields, k => fields.lookup k
  | _, _ => none

/-- The keys of a JSON object, in serialization order. -/
def Json.keys : Json → List String
  | .obj fields => fields.map Prod.fst
  | _ => []

/-- `struct ProcessResult` from `src/lib.rs`: the result of processing. -/
structure ProcessResult where
  /-- Whether the processing was successful -/
  success : Bool
  /-- Message describing the outcome -/
  message : String
  /-- Optional data returned from processing (`Option<serde_json::Value>`) -/
  data : Option Json
  deriving Repr

/-- `struct NodeRunnerProcessor` from `src/lib.rs`. -/
structure NodeRunnerProcessor where
  /-- Whether to print debug information -/
  verbose : Bool
  /-- Number of items processed (`usize`, modelled as `Nat`) -/
  processed_count : Nat
  deriving Repr, DecidableEq

namespace NodeRunnerProcessor

/-- `NodeRunnerProcessor::new`: a processor with the given verbosity and
`processed_count = 0`. -/
def new (verbose : Bool) : NodeRunnerProcessor :=
  { verbose := verbose, processed_count := 0 }

/-- `NodeRunnerProcessor::process`.  `data.len()` in Rust is the UTF-8
byte length of the string, hence `String.utf8ByteSize`.  The verbose
debug log line has no effect on the result and is not modelled.  `now`
stands for `chrono::Utc::now().to_rfc3339()`. -/
def process (self : NodeRunnerProcessor) (data : String) (now : String) :
    Except String (NodeRunnerProcessor × ProcessResult) :=
  -- Simulate processing
  let self := { self with processed_count := self.processed_count + 1 }
  let result : ProcessResult :=
    { success := true
      message := "Successfully processed item #" ++ toString self.processed_count
      data := some (Json.obj
        [("length", Json.num data.utf8ByteSize),
         ("processed_at", Json.str now),
         ("item_number", Json.num self.processed_count)]) }
  Except.ok (self, result)

/-- `NodeRunnerProcessor::get_stats`: statistics about the processor.
In Rust it takes `&self`; here it is a pure function of the state. -/
def get_stats (self : NodeRunnerProcessor) : Json :=
  Json.obj
    [("processed_count", Json.num self.processed_count),
     ("verbose", Json.bool self.verbose)]

end NodeRunnerProcessor

/-- `n` spaces, used for pretty-printer indentation. -/
def spaces (n : Nat) : String :=
  String.mk (List.replicate n ' ')

/-- Four lowercase hex digits, for JSON `\u00XX` control-character
escapes. -/
def hex4 (n : Nat) : String :=
  String.mk [Nat.digitChar (n / 4096 % 16), Nat.digitChar (n / 256 % 16),
             Nat.digitChar (n / 16 % 16), Nat.digitChar (n % 16)]

/-- JSON string escaping as serde_json performs it: quote, backslash and
the short control escapes, `\u00XX` for the remaining control
characters, every other character unchanged. -/
def escapeJsonChar (c : Char) : String :=
  if c = '"' then "\\\""
  else if c = '\\' then "\\\\"
  else if c = '\x08' then "\\b"
  else if c = '\x0c' then "\\f"
  else if c = '\n' then "\\n"
  else if c = '\r' then "\\r"
  else if c = '\t' then "\\t"
  else if c.toNat < 0x20 then "\\u" ++ hex4 c.toNat
  else String.singleton c

/-- Escape a whole string for inclusion in a JSON document. -/
def escapeJson (s : String) : String :=
  String.join (s.toList.map escapeJsonChar)

mutual

/-- Pretty-printing of a `Json` value in serde_json's pretty format:
2-space indentation, `": "` separator between key and value.  `ind` is
the current indentation of the value's surroundings. -/
def Json.prettyAux : Nat → Json → String
  | _, Json.null => "null"
  | _, Json.bool b => if b then "true" else "false"
  | _, Json.num n => toString n
  | _, Json.str s => "\"" ++ escapeJson s ++ "\""
  | _, Json.obj [] => "\x7b\x7d"
  | ind, Json.obj (f :: fs) =>
      "\x7b\n" ++ prettyFields (ind + 2) (f :: fs) ++ "\n" ++ spaces ind ++ "\x7d"

/-- The members of a JSON object, one per line, comma-separated. -/
def prettyFields : Nat → List (String × Json) → String
  | _, [] => ""
  | ind, [(k, v)] =>
      spaces ind ++ "\"" ++ escapeJson k ++ "\": " ++ Json.prettyAux ind v
  | ind, (k, v) :: f :: fs =>
      spaces ind ++ "\"" ++ escapeJson k ++ "\": " ++ Json.prettyAux ind v ++ ",\n" ++
        prettyFields ind (f :: fs)

end

/-- serde's derived `Serialize` for `struct ProcessResult`: a JSON
object with the struct's fields in declaration order; `None` serializes
to `null`. -/
def ProcessResult.toJson (r : ProcessResult) : Json :=
  Json.obj
    [("success", Json.bool r.success),
     ("message", Json.str r.message),
     ("data", match r.data with | some j => j | none => Json.null)]

/-- `serde_json::to_string_pretty(&result)`.  It cannot fail on the
values this program serializes (no non-string map keys, no fallible
`Serialize` impls), so it is modelled as total. -/
def to_string_pretty (r : ProcessResult) : String :=
  Json.prettyAux 0 r.toJson

/-- The filesystem visible to `run`: an association list from paths to
file contents.  `List.lookup` returns the first binding, so writes
prepend (i.e. overwrite). -/
abbrev Fs := List (String × String)

/-- `fs::read_to_string(path)`: the file's full contents, or an I/O
error when the path does not exist. -/
def fsReadToString (fs : Fs) (path : String) : Except String String :=
  match List.lookup path fs with
  | some contents => Except.ok contents
  | none => Except.error ("No such file or directory: " ++ path)

/-- `fs::write(path, contents)`: create or overwrite the file. -/
def fsWrite (fs : Fs) (path : String) (contents : String) : Fs :=
  (path, contents) :: fs

/-- `run` from `src/lib.rs`.  Logger initialization (`env_logger`) and
the `info!` lines are external effects with no bearing on the specified
values and are not modelled.  The `?` operator's short-circuiting is the
explicit `match` on `Except`; the filesystem is threaded through and
returned alongside the `Result<()>`, unchanged whenever `run`
propagates an error. -/
def run (verbose : Bool) (input : Option String) (output : Option String)
    (now : String) (fs : Fs) : Except String Unit × Fs :=
  -- Create a new processor
  let processor := NodeRunnerProcessor.new verbose
  -- Read input from the provided path
  match (match input with
         | some path => fsReadToString fs path
         | none => Except.ok "") with
  | Except.error e => (Except.error e, fs)
  | Except.ok input_data =>
    -- Process the input data
    match processor.process input_data now with
    | Except.error e => (Except.error e, fs)
    | Except.ok (_, result) =>
      -- Optionally write the result to a file
      match output with
      | some output_path =>
          (Except.ok (), fsWrite fs output_path (to_string_pretty result))
      | none => (Except.ok (), fs)

/-- `fs::write(path, contents)` with its `io::Result` made explicit:
the environment oracle `wfail` tells which paths the OS rejects
(permission denied, disk full, ...).  On success the file is created or
overwritten. -/
def fsWriteE (wfail : String → Bool) (fs : Fs) (path : String) (contents : String) :
    Except String Fs :=
  if wfail path then Except.error ("write error: " ++ path)
  else Except.ok ((path, contents) :: fs)

/-- `run` from `src/lib.rs` with the write error path explicit: the
same function as `run` above except that the `?` on `fs::write` at
lib.rs:110 is modelled, propagating a write failure with the filesystem
unchanged.  `run` is the special case where the environment accepts
every write (`run_eq_runE` below). -/
def runE (wfail : String → Bool) (verbose : Bool) (input : Option String)
    (output : Option String) (now : String) (fs : Fs) : Except String Unit × Fs :=
  -- Create a new processor
  let processor := NodeRunnerProcessor.new verbose
  -- Read input from the provided path
  match (match input with
         | some path => fsReadToString fs path
         | none => Except.ok "") with
  | Except.error e => (Except.error e, fs)
  | Except.ok input_data =>
    -- Process the input data
    match processor.process input_data now with
    | Except.error e => (Except.error e, fs)
    | Except.ok (_, result) =>
      -- Optionally write the result to a file
      match output with
      | some output_path =>
          match fsWriteE wfail fs output_path (to_string_pretty result) with
          | Except.error e => (Except.error e, fs)
          | Except.ok fs2 => (Except.ok (), fs2)
      | none => (Except.ok (), fs)

/-- The `data` payload's field `k`: present only when `data` is `Some`
object containing `k`.  Observation helper for stating properties. -/
def ProcessResult.dataField (r : ProcessResult) (k : String) : Option Json :=
  r.data.bind (fun j => j.getField k)

/-- Repeated calls of `process` on one processor: fold over a list of
(input, timestamp) pairs, keeping the updated state of each successful
call.  `process` never returns an error (proved below), so the error
branch, which keeps the state unchanged, is dead code. -/
def processIter (p : NodeRunnerProcessor) (calls : List (String × String)) :
    NodeRunnerProcessor :=
  calls.foldl (fun st c =>
    match st.process c.1 c.2 with
    | Except.ok (st2, _) => st2
    | Except.error _ => st) p

theorem processIter_processed_count (p : NodeRunnerProcessor)
    (calls : List (String × String)) :
    (processIter p calls).processed_count = p.processed_count + calls.length := by
  induction calls generalizing p with
  | nil => rfl
  | cons c cs ih =>
      show (processIter _ cs).processed_count = _
      rw [ih]
      simp [NodeRunnerProcessor.process]
      omega

/-- C1: a processor built by `new(verbose)` starts with
`processed_count = 0`; every `process` call (always successful)
increments the counter by exactly 1, so after the k-th call the counter
is exactly k, and `get_stats` reports that value. -/
theorem processedCount_counts_calls (verbose : Bool)
    (calls : List (String × String)) :
    (NodeRunnerProcessor.new verbose).processed_count = 0 ∧
    (∀ p : NodeRunnerProcessor, ∀ s t : String, ∃ r,
        p.process s t =
          Except.ok ({ p with processed_count := p.processed_count + 1 }, r)) ∧
    (processIter (NodeRunnerProcessor.new verbose) calls).processed_count =
      calls.length ∧
    (processIter (NodeRunnerProcessor.new verbose) calls).get_stats.getField
        "processed_count" = some (Json.num calls.length) := by
  refine ⟨rfl, fun p s t => ⟨_, rfl⟩, ?_, ?_⟩
  · rw [processIter_processed_count]
    simp [NodeRunnerProcessor.new]
  · show (Json.obj _).getField "processed_count" = _
    simp [Json.getField, NodeRunnerProcessor.get_stats, processIter_processed_count,
      NodeRunnerProcessor.new]

/-- C2: `process` never takes the error branch of its `Result` and the
returned `ProcessResult` always has `success = true`, for every input
string and every processor state. -/
theorem process_always_ok_and_success (p : NodeRunnerProcessor) (s t : String) :
    ∃ p2 r, p.process s t = Except.ok (p2, r) ∧ r.success = true :=
  ⟨_, _, rfl, rfl⟩

/-- C3: the `length` field of `process(s)`'s data is the exact length of
`s` (the byte count, `data.len()` in Rust); in particular `process("")`
succeeds with `length = 0`. -/
theorem process_data_length (p : NodeRunnerProcessor) (s t : String) :
    (∃ p2 r, p.process s t = Except.ok (p2, r) ∧
        r.dataField "length" = some (Json.num s.utf8ByteSize)) ∧
    (∃ p2 r, p.process "" t = Except.ok (p2, r) ∧ r.success = true ∧
        r.dataField "length" = some (Json.num 0)) :=
  ⟨⟨_, _, rfl, rfl⟩, ⟨_, _, rfl, rfl, rfl⟩⟩

/-- C4: the counter increment happens before the result is built: the
returned state carries `processed_count + 1`, the message embeds that
post-increment value as the item number, and `item_number` equals it
too. -/
theorem process_increments_before_result (p : NodeRunnerProcessor) (s t : String) :
    ∃ r, p.process s t =
        Except.ok ({ p with processed_count := p.processed_count + 1 }, r) ∧
      r.message = "Successfully processed item #" ++ toString (p.processed_count + 1) ∧
      r.dataField "item_number" = some (Json.num (p.processed_count + 1)) :=
  ⟨_, rfl, rfl, rfl⟩

/-- C5: any I/O failure — on reading the input file or on writing the
output file — aborts the run and propagates the error to the caller,
leaving the filesystem unchanged.  In particular a non-existent input
path returns the read error with no output file written, and an output
path the environment rejects returns the write error. -/
theorem run_io_error_propagates (verbose : Bool) (wfail : String → Bool)
    (path op now s : String) (output inp : Option String) (fs : Fs) :
    (List.lookup path fs = none →
        runE wfail verbose (some path) output now fs =
          (Except.error ("No such file or directory: " ++ path), fs)) ∧
    ((match inp with
      | some p => fsReadToString fs p
      | none => Except.ok "") = Except.ok s →
      wfail op = true →
        runE wfail verbose inp (some op) now fs =
          (Except.error ("write error: " ++ op), fs)) := by
  constructor
  · intro h
    simp [runE, fsReadToString, h]
  · intro hr hw
    cases inp with
    | some p =>
        simp only [] at hr
        simp [runE, hr, fsWriteE, hw]
        rfl
    | none =>
        simp only [] at hr
        cases hr
        simp [runE, fsWriteE, hw]
        rfl

theorem run_io_error_propagates_witness :
    runE (fun q => q == "out.json") false (some "missing.txt") (some "out.json")
        "2024-01-01T00:00:00+00:00" [] =
      (Except.error ("No such file or directory: " ++ "missing.txt"), []) ∧
    runE (fun q => q == "out.json") false (some "in.txt") (some "out.json")
        "2024-01-01T00:00:00+00:00" [("in.txt", "hello")] =
      (Except.error ("write error: " ++ "out.json"), [("in.txt", "hello")]) :=
  ⟨(run_io_error_propagates false (fun q => q == "out.json") "missing.txt" "out.json"
      "2024-01-01T00:00:00+00:00" "" (some "out.json") (some "in.txt") []).1 rfl,
   (run_io_error_propagates false (fun q => q == "out.json") "in.txt" "out.json"
      "2024-01-01T00:00:00+00:00" "hello" (some "out.json") (some "in.txt")
      [("in.txt", "hello")]).2 rfl rfl⟩

/-- One unfolding of `process`: it always returns `Ok` with the updated
state and the fully determined result. -/
theorem process_eq (p : NodeRunnerProcessor) (s t : String) :
    p.process s t = Except.ok
      ({ p with processed_count := p.processed_count + 1 },
       { success := true,
         message := "Successfully processed item #" ++ toString (p.processed_count + 1),
         data := some (Json.obj
           [("length", Json.num s.utf8ByteSize),
            ("processed_at", Json.str t),
            ("item_number", Json.num (p.processed_count + 1))]) }) := rfl

/-- `run` is exactly `runE` under an environment that accepts every
write: the infallible `fsWrite` used by `run` is the restriction of the
faithful fallible model to the all-writes-succeed case. -/
theorem run_eq_runE (verbose : Bool) (inp outp : Option String)
    (now : String) (fs : Fs) :
    run verbose inp outp now fs = runE (fun _ => false) verbose inp outp now fs := by
  cases inp with
  | none => cases outp <;> rfl
  | some path =>
      cases h : List.lookup path fs with
      | none => cases outp <;> simp [run, runE, fsReadToString, fsWriteE, h]
      | some c => cases outp <;> simp [run, runE, fsReadToString, fsWriteE, fsWrite, h, process_eq]

/-- When reading the input succeeds with contents `s` and an output path
is given, `run` succeeds and writes the serialized result of the single
`process` call on the fresh processor. -/
theorem run_write (verbose : Bool) (inp : Option String) (op now s : String) (fs : Fs)
    (h : (match inp with
          | some path => fsReadToString fs path
          | none => Except.ok "") = Except.ok s) :
    run verbose inp (some op) now fs =
      (Except.ok (), fsWrite fs op (to_string_pretty
        { success := true,
          message := "Successfully processed item #" ++ toString 1,
          data := some (Json.obj
            [("length", Json.num s.utf8ByteSize),
             ("processed_at", Json.str now),
             ("item_number", Json.num 1)]) })) := by
  cases inp with
  | some path =>
      simp only [] at h
      simp only [run, h, process_eq]
      rfl
  | none =>
      simp only [] at h
      cases h
      rfl

/-- When reading the input succeeds and no output path is given, `run`
succeeds and leaves the filesystem unchanged. -/
theorem run_skip_write (verbose : Bool) (inp : Option String) (now s : String) (fs : Fs)
    (h : (match inp with
          | some path => fsReadToString fs path
          | none => Except.ok "") = Except.ok s) :
    run verbose inp none now fs = (Except.ok (), fs) := by
  cases inp with
  | some path =>
      simp only [] at h
      simp only [run, h, process_eq]
  | none => rfl

/-- C6: `run` builds one processor and calls `process` exactly once on
the input text (the written result is exactly the result of that single
call on the fresh processor); with an input file containing "hello" the
result has `success = true`, a message ending in "#1", `length = 5` and
`item_number = 1`; with no input, `process` gets the empty string and
reports `length = 0`. -/
theorem run_end_to_end_hello (verbose : Bool) (ip op now : String) (fs : Fs)
    (h : List.lookup ip fs = some "hello") :
    (∃ r : ProcessResult,
        NodeRunnerProcessor.process (NodeRunnerProcessor.new verbose) "hello" now =
          Except.ok ({ verbose := verbose, processed_count := 1 }, r) ∧
        run verbose (some ip) (some op) now fs =
          (Except.ok (), fsWrite fs op (to_string_pretty r)) ∧
        r.success = true ∧
        (∃ pre, r.message = pre ++ "#1") ∧
        r.dataField "length" = some (Json.num 5) ∧
        r.dataField "item_number" = some (Json.num 1)) ∧
    (∃ r0 : ProcessResult,
        NodeRunnerProcessor.process (NodeRunnerProcessor.new verbose) "" now =
          Except.ok ({ verbose := verbose, processed_count := 1 }, r0) ∧
        run verbose none (some op) now fs =
          (Except.ok (), fsWrite fs op (to_string_pretty r0)) ∧
        r0.dataField "length" = some (Json.num 0)) := by
  constructor
  · refine ⟨{ success := true,
              message := "Successfully processed item #" ++ toString 1,
              data := some (Json.obj
                [("length", Json.num "hello".utf8ByteSize),
                 ("processed_at", Json.str now),
                 ("item_number", Json.num 1)]) }, rfl, ?_, rfl,
      ⟨"Successfully processed item ", ?_⟩, rfl, rfl⟩
    · exact run_write verbose (some ip) op now "hello" fs (by simp [fsReadToString, h])
    · show ("Successfully processed item #" ++ toString 1 : String) =
        "Successfully processed item " ++ "#1"
      decide
  · exact ⟨{ success := true,
             message := "Successfully processed item #" ++ toString 1,
             data := some (Json.obj
               [("length", Json.num "".utf8ByteSize),
                ("processed_at", Json.str now),
                ("item_number", Json.num 1)]) },
      rfl, run_write verbose none op now "" fs rfl, rfl⟩

theorem run_end_to_end_hello_witness :
    (∃ r : ProcessResult,
        NodeRunnerProcessor.process (NodeRunnerProcessor.new false) "hello" "t0" =
          Except.ok ({ verbose := false, processed_count := 1 }, r) ∧
        run false (some "in.txt") (some "out.json") "t0" [("in.txt", "hello")] =
          (Except.ok (), fsWrite [("in.txt", "hello")] "out.json" (to_string_pretty r)) ∧
        r.success = true ∧
        (∃ pre, r.message = pre ++ "#1") ∧
        r.dataField "length" = some (Json.num 5) ∧
        r.dataField "item_number" = some (Json.num 1)) ∧
    (∃ r0 : ProcessResult,
        NodeRunnerProcessor.process (NodeRunnerProcessor.new false) "" "t0" =
          Except.ok ({ verbose := false, processed_count := 1 }, r0) ∧
        run false none (some "out.json") "t0" [("in.txt", "hello")] =
          (Except.ok (), fsWrite [("in.txt", "hello")] "out.json" (to_string_pretty r0)) ∧
        r0.dataField "length" = some (Json.num 0)) :=
  run_end_to_end_hello false "in.txt" "out.json" "t0" [("in.txt", "hello")] rfl

/-- C7: when an output path is given and reading succeeds, `run` writes
the pretty-printed serialization of the result, whose JSON has exactly
the top-level keys `success` (bool), `message` (string) and `data` (an
object with exactly the keys `length` (integer), `processed_at` (the
RFC 3339 timestamp string) and `item_number` (integer)); when the
output path is absent, no file is written and `run` still succeeds. -/
theorem run_output_format (verbose : Bool) (inp : Option String)
    (op now s : String) (fs : Fs)
    (h : (match inp with
          | some path => fsReadToString fs path
          | none => Except.ok "") = Except.ok s) :
    (∃ r : ProcessResult,
        run verbose inp (some op) now fs =
          (Except.ok (), fsWrite fs op (to_string_pretty r)) ∧
        ∃ len num,
          r.toJson = Json.obj
            [("success", Json.bool true),
             ("message", Json.str r.message),
             ("data", Json.obj
               [("length", Json.num len),
                ("processed_at", Json.str now),
                ("item_number", Json.num num)])]) ∧
    run verbose inp none now fs = (Except.ok (), fs) :=
  ⟨⟨_, run_write verbose inp op now s fs h, s.utf8ByteSize, 1, rfl⟩,
    run_skip_write verbose inp now s fs h⟩

theorem run_output_format_witness :
    (∃ r : ProcessResult,
        run false none (some "out.json") "t0" [] =
          (Except.ok (), fsWrite [] "out.json" (to_string_pretty r)) ∧
        ∃ len num,
          r.toJson = Json.obj
            [("success", Json.bool true),
             ("message", Json.str r.message),
             ("data", Json.obj
               [("length", Json.num len),
                ("processed_at", Json.str "t0"),
                ("item_number", Json.num num)])]) ∧
    run false none none "t0" [] = (Except.ok (), []) :=
  run_output_format false none "out.json" "t0" "" [] rfl

/-- C8: `verbose` is set at construction and never modified: `process`
returns a state with the same `verbose` and only the counter changed;
`get_stats` is a pure read of the state (it takes the processor by
shared reference) returning exactly `{processed_count, verbose}`, with
no failure mode. -/
theorem verbose_immutable_get_stats_pure (p : NodeRunnerProcessor) (s t : String) :
    (∃ r, p.process s t =
        Except.ok ({ verbose := p.verbose,
                     processed_count := p.processed_count + 1 }, r)) ∧
    p.get_stats = Json.obj
      [("processed_count", Json.num p.processed_count),
       ("verbose", Json.bool p.verbose)] :=
  ⟨⟨_, rfl⟩, rfl⟩

/-- C9: the reported `length` is the UTF-8 byte length of the input
(`str::len`), not the Unicode character count: on "é" (one character,
two UTF-8 bytes) `process` reports 2. -/
theorem process_length_is_utf8_bytes (p : NodeRunnerProcessor) (s t : String) :
    (∃ p2 r, p.process s t = Except.ok (p2, r) ∧
        r.dataField "length" = some (Json.num s.utf8ByteSize)) ∧
    ("é".utf8ByteSize = 2 ∧ "é".length = 1) ∧
    (∃ p2 r, p.process "é" t = Except.ok (p2, r) ∧
        r.dataField "length" = some (Json.num 2)) :=
  ⟨⟨_, _, rfl, rfl⟩, ⟨rfl, rfl⟩, ⟨_, _, rfl, rfl⟩⟩

/-- C10: `process` is deterministic up to the timestamp: two calls from
equal states with equal inputs (and possibly different clock readings)
produce equal post-states and results agreeing on `success`, `message`,
`length` and `item_number`. -/
theorem process_deterministic_up_to_timestamp (p : NodeRunnerProcessor)
    (s t1 t2 : String) :
    ∃ p2 r1 r2,
      p.process s t1 = Except.ok (p2, r1) ∧
      p.process s t2 = Except.ok (p2, r2) ∧
      r1.success = r2.success ∧
      r1.message = r2.message ∧
      r1.dataField "length" = r2.dataField "length" ∧
      r1.dataField "item_number" = r2.dataField "item_number" :=
  ⟨_, _, _, rfl, rfl, rfl, rfl, rfl, rfl⟩
